import Mathlib

/-!
Shallow embedding of the delphy repository core: the node/edge data model,
the graph builder (`Tree::new` in `src/core.rs`) and the recursive
evaluator (`Node::eval` in `src/core.rs` and `src/node.rs`).

Machine floats (`f64`) are modelled as rationals (`ℚ`); no claim under
study depends on floating-point rounding.  Rust's three ways out of a
function — `Ok`, a returned `anyhow` error, and a panic (`unwrap`,
`expect`, `todo!`) — are modelled by the three constructors of
`RustResult`, each carrying the message.
-/

namespace Delphy

/-- Outcome of a fallible Rust function: `Ok`, a returned error
(`anyhow!` message), or a panic (`unwrap` / `expect` / `todo!`). -/
inductive RustResult (α : Type) where
  | ok : α → RustResult α
  | err : String → RustResult α
  | panic : String → RustResult α
deriving DecidableEq

/-- Modelled from the spec: the external expression-parsing/evaluation
capability (the `evalexpr` crate in `src/core.rs` / `src/node.rs`) is out
of scope of the source and specified only as an opaque capability:
"given an expression string, produce a callable that, given a mapping from
identifier to numeric value, returns a numeric result or fails."  We model
the infix algebraic fragment the repository exercises: integer literals,
identifiers (letters, digits, `_`, `$`), the binary operators
`+ - * / ^` with the usual precedence, and parentheses. -/
inductive Expr where
  | num : ℚ → Expr
  | var : String → Expr
  | add : Expr → Expr → Expr
  | sub : Expr → Expr → Expr
  | mul : Expr → Expr → Expr
  | div : Expr → Expr → Expr
  | pow : Expr → Expr → Expr
deriving DecidableEq

/-- Tokens of the expression language. -/
inductive Tok where
  | num : ℚ → Tok
  | ident : String → Tok
  | plus : Tok
  | minus : Tok
  | star : Tok
  | slash : Tok
  | caret : Tok
  | lparen : Tok
  | rparen : Tok
deriving DecidableEq

/-- First character of an identifier. -/
def isIdentStart (c : Char) : Bool :=
  c.isAlpha || c = '$' || c = '_'

/-- Subsequent character of an identifier. -/
def isIdentCont (c : Char) : Bool :=
  c.isAlphanum || c = '_'

/-- Split off a maximal run of decimal digits. -/
def takeDigits : List Char → List Char × List Char
  | [] => ([], [])
  | c :: cs =>
    if c.isDigit then
      let p := takeDigits cs
      (c :: p.1, p.2)
    else ([], c :: cs)

/-- Split off a maximal run of identifier-continuation characters. -/
def takeIdentChars : List Char → List Char × List Char
  | [] => ([], [])
  | c :: cs =>
    if isIdentCont c then
      let p := takeIdentChars cs
      (c :: p.1, p.2)
    else ([], c :: cs)

/-- Decimal digits to a natural number. -/
def digitsToNat (ds : List Char) : Nat :=
  ds.foldl (fun a c => 10 * a + (c.toNat - 48)) 0

/-- Fuel-indexed tokenizer; `none` on an unrecognized character or on
fuel exhaustion (never reached from `tokenize`). -/
def tokenizeAux : Nat → List Char → Option (List Tok)
  | 0, _ => none
  | _, [] => some []
  | fuel + 1, c :: cs =>
    if c = ' ' then tokenizeAux fuel cs
    else if c = '+' then (tokenizeAux fuel cs).map (Tok.plus :: ·)
    else if c = '-' then (tokenizeAux fuel cs).map (Tok.minus :: ·)
    else if c = '*' then (tokenizeAux fuel cs).map (Tok.star :: ·)
    else if c = '/' then (tokenizeAux fuel cs).map (Tok.slash :: ·)
    else if c = '^' then (tokenizeAux fuel cs).map (Tok.caret :: ·)
    else if c = '(' then (tokenizeAux fuel cs).map (Tok.lparen :: ·)
    else if c = ')' then (tokenizeAux fuel cs).map (Tok.rparen :: ·)
    else if c.isDigit then
      let p := takeDigits cs
      (tokenizeAux fuel p.2).map (Tok.num (digitsToNat (c :: p.1)) :: ·)
    else if isIdentStart c then
      let p := takeIdentChars cs
      (tokenizeAux fuel p.2).map (Tok.ident (String.mk (c :: p.1)) :: ·)
    else none

/-- Tokenize a whole string (each step consumes at least one character,
so `length + 1` fuel always suffices). -/
def tokenize (s : String) : Option (List Tok) :=
  tokenizeAux (s.toList.length + 1) s.toList

mutual

/-- Sums and differences (lowest precedence). -/
def parseSum : Nat → List Tok → Option (Expr × List Tok)
  | 0, _ => none
  | fuel + 1, ts =>
    match parseProd fuel ts with
    | none => none
    | some (e, rest) => parseSumRest fuel e rest

/-- Left-associated chain of `+` / `-`. -/
def parseSumRest : Nat → Expr → List Tok → Option (Expr × List Tok)
  | 0, _, _ => none
  | fuel + 1, acc, ts =>
    match ts with
    | Tok.plus :: rest =>
      match parseProd fuel rest with
      | none => none
      | some (e, rest2) => parseSumRest fuel (Expr.add acc e) rest2
    | Tok.minus :: rest =>
      match parseProd fuel rest with
      | none => none
      | some (e, rest2) => parseSumRest fuel (Expr.sub acc e) rest2
    | _ => some (acc, ts)

/-- Products and quotients. -/
def parseProd : Nat → List Tok → Option (Expr × List Tok)
  | 0, _ => none
  | fuel + 1, ts =>
    match parsePow fuel ts with
    | none => none
    | some (e, rest) => parseProdRest fuel e rest

/-- Left-associated chain of `*` / `/`. -/
def parseProdRest : Nat → Expr → List Tok → Option (Expr × List Tok)
  | 0, _, _ => none
  | fuel + 1, acc, ts =>
    match ts with
    | Tok.star :: rest =>
      match parsePow fuel rest with
      | none => none
      | some (e, rest2) => parseProdRest fuel (Expr.mul acc e) rest2
    | Tok.slash :: rest =>
      match parsePow fuel rest with
      | none => none
      | some (e, rest2) => parseProdRest fuel (Expr.div acc e) rest2
    | _ => some (acc, ts)

/-- Exponentiation (right-associative, highest binary precedence). -/
def parsePow : Nat → List Tok → Option (Expr × List Tok)
  | 0, _ => none
  | fuel + 1, ts =>
    match parseAtom fuel ts with
    | none => none
    | some (e, rest) =>
      match rest with
      | Tok.caret :: rest2 =>
        match parsePow fuel rest2 with
        | none => none
        | some (e2, rest3) => some (Expr.pow e e2, rest3)
      | _ => some (e, rest)

/-- Atoms: literals, identifiers, parenthesized expressions.  A `(` with
no matching `)` fails. -/
def parseAtom : Nat → List Tok → Option (Expr × List Tok)
  | 0, _ => none
  | fuel + 1, ts =>
    match ts with
    | Tok.num q :: rest => some (Expr.num q, rest)
    | Tok.ident s :: rest => some (Expr.var s, rest)
    | Tok.lparen :: rest =>
      match parseSum fuel rest with
      | none => none
      | some (e, rest2) =>
        match rest2 with
        | Tok.rparen :: rest3 => some (e, rest3)
        | _ => none
    | _ => none

end

/-- Parse an expression string; the whole token stream must be consumed.
Models `evalexpr::build_operator_tree` (resp. `str::parse::<Expression>`
in `src/lib.rs`) succeeding or failing. -/
def parseExpr (s : String) : Option Expr :=
  match tokenize s with
  | none => none
  | some ts =>
    match parseSum (4 * ts.length + 8) ts with
    | some (e, []) => some e
    | _ => none

/-- Last-write-wins lookup, the `HashMapContext` behaviour: repeated
`set_value` on the same identifier overwrites. -/
def ctxLookup (ctx : List (String × ℚ)) (s : String) : Option ℚ :=
  (ctx.reverse.find? (fun p => p.1 == s)).map (fun p => p.2)

/-- Modelled from the spec: evaluating a parsed expression against an
identifier-to-number context; an identifier absent from the context is a
failure ("unknown identifier inside the expression").  Exponents must be
non-negative integers in this rational model. -/
def evalExpr (ctx : List (String × ℚ)) : Expr → Option ℚ
  | .num q => some q
  | .var s => ctxLookup ctx s
  | .add a b =>
    match evalExpr ctx a, evalExpr ctx b with
    | some x, some y => some (x + y)
    | _, _ => none
  | .sub a b =>
    match evalExpr ctx a, evalExpr ctx b with
    | some x, some y => some (x - y)
    | _, _ => none
  | .mul a b =>
    match evalExpr ctx a, evalExpr ctx b with
    | some x, some y => some (x * y)
    | _, _ => none
  | .div a b =>
    match evalExpr ctx a, evalExpr ctx b with
    | some x, some y => some (x / y)
    | _, _ => none
  | .pow a b =>
    match evalExpr ctx a, evalExpr ctx b with
    | some x, some y =>
      if y.den = 1 ∧ 0 ≤ y.num then some (x ^ y.num.toNat) else none
    | _, _ => none

/-- `NodeOutput` (identical in `src/core.rs` and `src/node.rs`): a scalar
or an ordered sequence of scalars. -/
inductive NodeOutput where
  | NumberArray : List ℚ → NodeOutput
  | Number : ℚ → NodeOutput
deriving DecidableEq

/-- Length of a `NodeOutput` (1 for a scalar). -/
def outputLen : NodeOutput → Nat
  | .NumberArray v => v.length
  | .Number _ => 1

/-- Normalization of an input's output to a sequence: a scalar becomes a
one-element sequence (`core.rs` lines 98–101, `node.rs` lines 61–64). -/
def normalize : NodeOutput → List ℚ
  | .Number v => [v]
  | .NumberArray v => v

/-- The running `max_len` accumulation: `max_len = max_len.max(val.len())`
over the (synthetic id, normalized values) pairs of the inputs. -/
def maxLenOf (pairs : List (String × List ℚ)) : Nat :=
  pairs.foldl (fun m p => max m p.2.length) 0

/-- The value bound for one input at broadcast position `idx`:
`node_vals.get(idx_arr).unwrap_or(node_vals.last().expect(...))`.
Rust evaluates the `unwrap_or` argument eagerly, so an empty value array
panics at the `expect` regardless of the position. -/
def pickVal (vals : List ℚ) (idx : Nat) : RustResult ℚ :=
  match vals.getLast? with
  | none => .panic "The value array from a node was empty"
  | some lastVal => .ok (vals.getD idx lastVal)

/-- Assembling the binding context for one broadcast position
(`core.rs` lines 112–128, `node.rs` lines 82–98): each input's synthetic
identifier is bound to its value at that position (ragged repeat). -/
def buildArgs (pairs : List (String × List ℚ)) (idx : Nat) :
    RustResult (List (String × ℚ)) :=
  match pairs with
  | [] => .ok []
  | (sid, vals) :: rest =>
    match pickVal vals idx with
    | .panic m => .panic m
    | .err m => .err m
    | .ok v =>
      match buildArgs rest idx with
      | .panic m => .panic m
      | .err m => .err m
      | .ok ctx => .ok ((sid, v) :: ctx)

/-- The broadcast loop `for idx_arr in 0..max_len`, abstracted over the
per-position body: outputs of all positions are concatenated, the first
error or panic aborts the loop. -/
def runLoop (step : Nat → RustResult (List ℚ)) : List Nat → RustResult (List ℚ)
  | [] => .ok []
  | i :: rest =>
    match step i with
    | .err m => .err m
    | .panic m => .panic m
    | .ok vs =>
      match runLoop step rest with
      | .err m => .err m
      | .panic m => .panic m
      | .ok more => .ok (vs ++ more)

/-- The collapse step (`core.rs` lines 140–144, `node.rs` lines 110–114):
zero produced elements is an error, one yields a scalar, more a
sequence. -/
def collapse (vals : List ℚ) : RustResult NodeOutput :=
  match vals with
  | [] => .err "The computation resulted in no output"
  | [v] => .ok (.Number v)
  | _ => .ok (.NumberArray vals)

namespace Core

/-- `NodeKind` from `src/core.rs`: a named input variable, a parsed
formula, or the unimplemented external query. -/
inductive NodeKind where
  | Variable : String → NodeKind
  | Formula : Expr → NodeKind
  | SqlQuery : String → NodeKind
deriving DecidableEq

/-- `Node` from `src/core.rs`: id, kind, and the ordered input list.  The
`Rc`-shared, `RefCell`-mutable input handles of the source are modelled
by structural containment, which agrees with the source on every acyclic
graph (evaluation is pure, so sharing and copying are indistinguishable). -/
inductive Node where
  | mk : Nat → NodeKind → List Node → Node

/-- The node's id. -/
def Node.id : Node → Nat
  | .mk i _ _ => i

/-- The node's kind. -/
def Node.kind : Node → NodeKind
  | .mk _ k _ => k

/-- The node's ordered inputs. -/
def Node.inputs : Node → List Node
  | .mk _ _ l => l

/-- One iteration body of the broadcast loop of `Node::eval`
(`src/core.rs` lines 108–137): `Variable` is `unreachable!()` there (the
variable branch has already returned), `Formula` binds the context and
evaluates, `SqlQuery` is `todo!()`. -/
def runIdx (kind : NodeKind) (pairs : List (String × List ℚ)) (idx : Nat) :
    RustResult (List ℚ) :=
  match kind with
  | .Variable _ => .panic "internal error: entered unreachable code"
  | .Formula e =>
    match buildArgs pairs idx with
    | .panic m => .panic m
    | .err m => .err m
    | .ok ctx =>
      match evalExpr ctx e with
      | some r => .ok [r]
      | none => .err "Formula evaluation failed"
  | .SqlQuery _ => .panic "not yet implemented"

mutual

/-- `Node::eval` from `src/core.rs` (lines 80–145).  `values` is the
`HashMap<NodeId, NodeOutput>` binding map, modelled as an association
list.  A `Variable` node returns its binding (or the "missing variable
value" error) before any input traversal; every other kind evaluates its
inputs in order, runs the broadcast loop and collapses the result. -/
def Node.eval : Node → List (Nat × NodeOutput) → RustResult NodeOutput
  | .mk nodeId kind inputs, values =>
    match kind with
    | .Variable varName =>
      match List.lookup nodeId values with
      | some val => .ok val
      | none =>
        .err ("missing variable value for " ++ varName ++
          " (node id = " ++ toString nodeId ++ ")")
    | _ =>
      match evalInputs inputs values with
      | .err m => .err m
      | .panic m => .panic m
      | .ok pairs =>
        match runLoop (runIdx kind pairs) (List.range (maxLenOf pairs)) with
        | .err m => .err m
        | .panic m => .panic m
        | .ok outs => collapse outs
termination_by structural n => n

/-- The input loop of `Node::eval` (`src/core.rs` lines 92–105): each
input is evaluated recursively, its output normalized, and paired with
its synthetic identifier `"$<id>"`; the first error or panic aborts. -/
def evalInputs : List Node → List (Nat × NodeOutput) →
    RustResult (List (String × List ℚ))
  | [], _ => .ok []
  | n :: rest, values =>
    match Node.eval n values with
    | .err m => .err m
    | .panic m => .panic m
    | .ok val =>
      match evalInputs rest values with
      | .err m => .err m
      | .panic m => .panic m
      | .ok pairs => .ok (("$" ++ toString (Node.id n), normalize val) :: pairs)
termination_by structural l => l

end

/-- `NodeDefinition` from `src/core.rs`: transport form of a node. -/
structure NodeDefinition where
  node_id : Nat
  value : String
  kind : Nat
deriving DecidableEq

/-- `EdgeDefinition` from `src/core.rs`: `input_id`'s output feeds
`node_id`. -/
structure EdgeDefinition where
  node_id : Nat
  input_id : Nat
deriving DecidableEq

/-- A constructed node as the `Tree` stores it: its kind and its ordered
input-id list (the arena view of the `Rc<Node>` graph). -/
structure TreeNode where
  kind : NodeKind
  inputs : List Nat
deriving DecidableEq

/-- `HashMap::insert`: overwrite the binding if the key is present,
otherwise add it. -/
def insertNode (m : List (Nat × TreeNode)) (k : Nat) (v : TreeNode) :
    List (Nat × TreeNode) :=
  match m with
  | [] => [(k, v)]
  | (k0, v0) :: rest =>
    if k0 = k then (k, v) :: rest else (k0, v0) :: insertNode rest k v

/-- `HashMap::get`. -/
def lookupNode (m : List (Nat × TreeNode)) (k : Nat) : Option TreeNode :=
  List.lookup k m

/-- First phase of `Tree::new` (`src/core.rs` lines 159–172): construct a
node per definition, first definition of an id wins, kind 0 is a
variable, kind 1 a formula (whose text is parsed with `.unwrap()`, a
panic on failure), anything else is the "Invalid node type" error. -/
def buildNodes : List NodeDefinition → List (Nat × TreeNode) →
    RustResult (List (Nat × TreeNode))
  | [], m => .ok m
  | d :: rest, m =>
    match lookupNode m d.node_id with
    | some _ => buildNodes rest m
    | none =>
      match d.kind with
      | 0 => buildNodes rest (insertNode m d.node_id ⟨.Variable d.value, []⟩)
      | 1 =>
        match parseExpr d.value with
        | some e => buildNodes rest (insertNode m d.node_id ⟨.Formula e, []⟩)
        | none => .panic "called Result::unwrap on an Err value"
      | _ => .err "Invalid node type"

/-- Second phase of `Tree::new` (`src/core.rs` lines 174–189): for each
edge in list order, look up both endpoints (errors "node not found" /
"input node not found") and append the input's id to the node's ordered
input list. -/
def addEdges : List EdgeDefinition → List (Nat × TreeNode) →
    RustResult (List (Nat × TreeNode))
  | [], m => .ok m
  | e :: rest, m =>
    match lookupNode m e.node_id with
    | none => .err "node not found"
    | some node =>
      match lookupNode m e.input_id with
      | none => .err "input node not found"
      | some _ =>
        addEdges rest
          (insertNode m e.node_id ⟨node.kind, node.inputs ++ [e.input_id]⟩)

/-- `Tree` from `src/core.rs`: the owned collection of nodes, keyed by
id. -/
structure Tree where
  nodes : List (Nat × TreeNode)
deriving DecidableEq

/-- `Tree::new` (`src/core.rs` lines 154–194): nodes first, then edges. -/
def Tree.new (nodeDefs : List NodeDefinition) (edgeDefs : List EdgeDefinition) :
    RustResult Tree :=
  match buildNodes nodeDefs [] with
  | .err m => .err m
  | .panic m => .panic m
  | .ok m =>
    match addEdges edgeDefs m with
    | .err m2 => .err m2
    | .panic m2 => .panic m2
    | .ok m2 => .ok ⟨m2⟩

end Core

namespace NodeRs

/-- `NodeKind` from `src/node.rs`: a constant scalar, a constant
sequence, a parsed formula, or the unimplemented external query. -/
inductive NodeKind where
  | Number : ℚ → NodeKind
  | NumberArray : List ℚ → NodeKind
  | Formula : Expr → NodeKind
  | SqlQuery : String → NodeKind
deriving DecidableEq

/-- `Node` from `src/node.rs` (id is an `i32` there). -/
inductive Node where
  | mk : Int → NodeKind → List Node → Node

/-- The node's id. -/
def Node.id : Node → Int
  | .mk i _ _ => i

/-- The node's kind. -/
def Node.kind : Node → NodeKind
  | .mk _ k _ => k

/-- The node's ordered inputs. -/
def Node.inputs : Node → List Node
  | .mk _ _ l => l

/-- One iteration body of the broadcast loop of `Node::eval`
(`src/node.rs` lines 77–108): a `Number` pushes its value, a
`NumberArray` appends its whole stored sequence, a `Formula` binds the
context and evaluates, `SqlQuery` is `todo!()`. -/
def runIdx (kind : NodeKind) (pairs : List (String × List ℚ)) (idx : Nat) :
    RustResult (List ℚ) :=
  match kind with
  | .Number v => .ok [v]
  | .NumberArray vec => .ok vec
  | .Formula e =>
    match buildArgs pairs idx with
    | .panic m => .panic m
    | .err m => .err m
    | .ok ctx =>
      match evalExpr ctx e with
      | some r => .ok [r]
      | none => .err "Formula evaluation failed"
  | .SqlQuery _ => .panic "not yet implemented"

/-- The broadcast length (`src/node.rs` lines 57–74): the running
maximum of the inputs' normalized lengths, overridden to 1 when the node
itself is a `Number` or `NumberArray`. -/
def broadcastLen (kind : NodeKind) (pairs : List (String × List ℚ)) : Nat :=
  match kind with
  | .Number _ => 1
  | .NumberArray _ => 1
  | _ => maxLenOf pairs

mutual

/-- `Node::eval` from `src/node.rs` (lines 54–115): evaluate every input
recursively (pairing its normalized output with its synthetic identifier
`"id<id>"`), run the broadcast loop, collapse the produced elements. -/
def Node.eval : Node → RustResult NodeOutput
  | .mk _ kind inputs =>
    match evalInputs inputs with
    | .err m => .err m
    | .panic m => .panic m
    | .ok pairs =>
      match runLoop (runIdx kind pairs) (List.range (broadcastLen kind pairs)) with
      | .err m => .err m
      | .panic m => .panic m
      | .ok outs => collapse outs
termination_by structural n => n

/-- The input loop of `Node::eval` (`src/node.rs` lines 58–68). -/
def evalInputs : List Node → RustResult (List (String × List ℚ))
  | [] => .ok []
  | n :: rest =>
    match Node.eval n with
    | .err m => .err m
    | .panic m => .panic m
    | .ok val =>
      match evalInputs rest with
      | .err m => .err m
      | .panic m => .panic m
      | .ok pairs => .ok (("id" ++ toString (Node.id n), normalize val) :: pairs)
termination_by structural l => l

end

end NodeRs

namespace Lib

/-- `NodeKind` from `src/lib.rs` (scalars are exact `savage_core`
expressions there; the numeric payloads are modelled as rationals like
everywhere else). -/
inductive NodeKind where
  | Number : ℚ → NodeKind
  | NumberArray : List ℚ → NodeKind
  | Formula : Expr → NodeKind
  | SqlQuery : String → NodeKind
deriving DecidableEq

/-- `Node` from `src/lib.rs`. -/
inductive Node where
  | mk : Int → NodeKind → Option (List Node) → Node

/-- `Node::from_formula` from `src/lib.rs` (lines 89–99): a parse
failure is returned as the "Unable to parse expression" error — unlike
its `src/core.rs` counterpart, which calls `.unwrap()` and panics. -/
def from_formula (formula : String) : RustResult Node :=
  match parseExpr formula with
  | none => .err "Unable to parse expression"
  | some e => .ok (.mk 0 (.Formula e) none)

end Lib

/-! Helper lemmas shared by the claim theorems. -/

/-- Helper: a successful collapse's output length is the number of
produced elements. -/
theorem collapse_ok_length (vals : List ℚ) (out : NodeOutput)
    (h : collapse vals = .ok out) : outputLen out = vals.length := by
  cases vals with
  | nil => simp [collapse] at h
  | cons a t =>
    cases t with
    | nil =>
      have h2 : RustResult.ok (NodeOutput.Number a) = .ok out := h
      injection h2 with h3
      rw [← h3]
      rfl
    | cons b t2 =>
      have h2 : RustResult.ok (NodeOutput.NumberArray (a :: b :: t2)) = .ok out := h
      injection h2 with h3
      rw [← h3]
      rfl

/-- Helper: when every loop-body call yields exactly one element, a
successful broadcast loop yields one element per position. -/
theorem runLoop_ok_length (step : Nat → RustResult (List ℚ))
    (hstep : ∀ i vs, step i = .ok vs → vs.length = 1) :
    ∀ (l : List Nat) (outs : List ℚ), runLoop step l = .ok outs →
      outs.length = l.length := by
  intro l
  induction l with
  | nil =>
    intro outs h
    injection h with h2
    rw [← h2]
    rfl
  | cons i rest ih =>
    intro outs h
    rw [runLoop] at h
    cases hs : step i with
    | err m => rw [hs] at h; exact RustResult.noConfusion h
    | panic m => rw [hs] at h; exact RustResult.noConfusion h
    | ok vs =>
      rw [hs] at h
      cases hrec : runLoop step rest with
      | err m => rw [hrec] at h; exact RustResult.noConfusion h
      | panic m => rw [hrec] at h; exact RustResult.noConfusion h
      | ok more =>
        rw [hrec] at h
        injection h with h2
        rw [← h2]
        have := hstep i vs hs
        have := ih more hrec
        simp [List.length_append]
        omega

/-- Helper: the formula branch of the loop body pushes exactly one value
when it succeeds (`src/node.rs`). -/
theorem NodeRs.runIdx_formula_len (e : Expr) (pairs : List (String × List ℚ))
    (i : Nat) (vs : List ℚ) (h : NodeRs.runIdx (.Formula e) pairs i = .ok vs) :
    vs.length = 1 := by
  rw [NodeRs.runIdx] at h
  split at h
  · exact RustResult.noConfusion h
  · exact RustResult.noConfusion h
  · split at h
    · injection h with h2
      rw [← h2]
      rfl
    · exact RustResult.noConfusion h

/-- Helper: once the inputs have evaluated to `pairs`, `Node::eval` of
`src/node.rs` is the broadcast loop followed by the collapse. -/
theorem NodeRs.eval_loop_shape (nodeId : Int) (kind : NodeRs.NodeKind)
    (inputs : List NodeRs.Node) (pairs : List (String × List ℚ))
    (hins : NodeRs.evalInputs inputs = .ok pairs) :
    NodeRs.Node.eval (.mk nodeId kind inputs) =
      match runLoop (NodeRs.runIdx kind pairs)
          (List.range (NodeRs.broadcastLen kind pairs)) with
      | .err m => .err m
      | .panic m => .panic m
      | .ok outs => collapse outs := by
  rw [NodeRs.Node.eval, hins]

/-- Helper: once the inputs of a non-`Variable` node have evaluated to
`pairs`, `Node::eval` of `src/core.rs` is the broadcast loop followed by
the collapse. -/
theorem Core.eval_collapse_shape (nodeId : Nat) (kind : Core.NodeKind)
    (inputs : List Core.Node) (values : List (Nat × NodeOutput))
    (pairs : List (String × List ℚ)) (hnv : ∀ s, kind ≠ .Variable s)
    (hins : Core.evalInputs inputs values = .ok pairs) :
    Core.Node.eval (.mk nodeId kind inputs) values =
      match runLoop (Core.runIdx kind pairs) (List.range (maxLenOf pairs)) with
      | .err m => .err m
      | .panic m => .panic m
      | .ok outs => collapse outs := by
  cases kind with
  | Variable s => exact absurd rfl (hnv s)
  | Formula e =>
    rw [Core.Node.eval, hins]
    intro s h
    exact Core.NodeKind.noConfusion h
  | SqlQuery q =>
    rw [Core.Node.eval, hins]
    intro s h
    exact Core.NodeKind.noConfusion h

/-- C6: for a Formula node of `src/node.rs` whose inputs evaluated to
normalized sequences (the lengths `L1..Ln`), a successful evaluation's
output length is the running maximum `max(L1..Ln)`; a successful
`Number` (constant) node's output length is 1 and a `NumberArray`
(constant-sequence) node's equals the stored sequence's length, in both
cases regardless of any attached inputs. -/
theorem c6_broadcast_length (nodeId : Int) (inputs : List NodeRs.Node)
    (pairs : List (String × List ℚ))
    (hins : NodeRs.evalInputs inputs = .ok pairs) :
    (∀ e out, NodeRs.Node.eval (.mk nodeId (.Formula e) inputs) = .ok out →
      outputLen out = maxLenOf pairs) ∧
    (∀ v out, NodeRs.Node.eval (.mk nodeId (.Number v) inputs) = .ok out →
      outputLen out = 1) ∧
    (∀ vec out, NodeRs.Node.eval (.mk nodeId (.NumberArray vec) inputs) = .ok out →
      outputLen out = vec.length) := by
  refine ⟨?_, ?_, ?_⟩
  · intro e out h
    rw [NodeRs.eval_loop_shape nodeId (.Formula e) inputs pairs hins] at h
    cases hrl : runLoop (NodeRs.runIdx (.Formula e) pairs)
        (List.range (NodeRs.broadcastLen (.Formula e) pairs)) with
    | err m => rw [hrl] at h; exact RustResult.noConfusion h
    | panic m => rw [hrl] at h; exact RustResult.noConfusion h
    | ok outs =>
      rw [hrl] at h
      have hlen := collapse_ok_length outs out h
      have h1 := runLoop_ok_length (NodeRs.runIdx (.Formula e) pairs)
        (fun i vs hv => NodeRs.runIdx_formula_len e pairs i vs hv) _ _ hrl
      rw [hlen, h1, List.length_range]
      rfl
  · intro v out h
    rw [NodeRs.eval_loop_shape nodeId (.Number v) inputs pairs hins] at h
    injection h with h2
    rw [← h2]
    rfl
  · intro vec out h
    rw [NodeRs.eval_loop_shape nodeId (.NumberArray vec) inputs pairs hins] at h
    have h3 := collapse_ok_length (vec ++ []) out h
    rw [h3, List.append_nil]

/-- Witness for C6: a formula node over a scalar input (length 1) and a
two-element constant-sequence input has output length 2 = max(1, 2). -/
theorem c6_broadcast_length_witness :
    outputLen (NodeOutput.NumberArray [2, 2]) =
      maxLenOf [("id0", [1]), ("id1", [2, 3])] :=
  (c6_broadcast_length 9 [.mk 0 (.Number 1) [], .mk 1 (.NumberArray [2, 3]) []]
      [("id0", [1]), ("id1", [2, 3])] rfl).1 (Expr.num 2)
    (NodeOutput.NumberArray [2, 2]) rfl

/-- C7: ragged repeat.  When the binding context for broadcast position
`p` is assembled and input `i` has a non-empty normalized sequence of
length at most `p`, the context binds that input's synthetic identifier
to the sequence's last element. -/
theorem c7_ragged_repeat (pairs : List (String × List ℚ)) (i p : Nat)
    (sid : String) (vals : List ℚ) (ctx : List (String × ℚ))
    (hget : pairs.get? i = some (sid, vals)) (hne : vals ≠ [])
    (hlen : vals.length ≤ p) (hok : buildArgs pairs p = .ok ctx) :
    ∃ l, vals.getLast? = some l ∧ ctx.get? i = some (sid, l) := by
  induction pairs generalizing i ctx with
  | nil => simp at hget
  | cons hd tl ih =>
    obtain ⟨s0, v0⟩ := hd
    rw [buildArgs] at hok
    cases hpv : pickVal v0 p with
    | err m => rw [hpv] at hok; exact RustResult.noConfusion hok
    | panic m => rw [hpv] at hok; exact RustResult.noConfusion hok
    | ok v =>
      rw [hpv] at hok
      cases hrest : buildArgs tl p with
      | err m => rw [hrest] at hok; exact RustResult.noConfusion hok
      | panic m => rw [hrest] at hok; exact RustResult.noConfusion hok
      | ok ctx2 =>
        rw [hrest] at hok
        injection hok with hok2
        cases i with
        | zero =>
          injection hget with hget2
          injection hget2 with hs hv
          subst hs
          subst hv
          rw [pickVal] at hpv
          cases hl : v0.getLast? with
          | none => rw [hl] at hpv; exact RustResult.noConfusion hpv
          | some l =>
            rw [hl] at hpv
            injection hpv with hv2
            refine ⟨l, rfl, ?_⟩
            rw [← hok2]
            have hgd : v0.getD p l = l := by
              rw [List.getD_eq_getElem?_getD, List.getElem?_eq_none hlen]
              rfl
            rw [← hv2, hgd]
            rfl
        | succ i2 =>
          have hget2 : tl.get? i2 = some (sid, vals) := hget
          obtain ⟨l, hl1, hl2⟩ := ih i2 ctx2 hget2 hrest
          refine ⟨l, hl1, ?_⟩
          rw [← hok2]
          exact hl2

/-- Witness for C7: the single input `"$1" -> [7, 8]` at broadcast
position 3 is bound to its last element 8. -/
theorem c7_ragged_repeat_witness :
    ∃ l, ([7, 8] : List ℚ).getLast? = some l ∧
      ([("$1", (8 : ℚ))] : List (String × ℚ)).get? 0 = some ("$1", l) :=
  c7_ragged_repeat [("$1", [7, 8])] 0 3 "$1" [7, 8] [("$1", 8)] rfl
    (by decide) (by decide) rfl

/-- C8: the collapse of the produced elements — zero elements is the
"computation resulted in no output" error, exactly one yields a scalar,
more than one yields a sequence — and every evaluation of a non-Variable
node of `src/core.rs` ends in exactly this collapse of the broadcast
loop's output. -/
theorem c8_collapse_property (vals : List ℚ) :
    (vals = [] → collapse vals = .err "The computation resulted in no output") ∧
    (∀ v, vals = [v] → collapse vals = .ok (.Number v)) ∧
    (2 ≤ vals.length → collapse vals = .ok (.NumberArray vals)) ∧
    (∀ (nodeId : Nat) (kind : Core.NodeKind) (inputs : List Core.Node)
        (values : List (Nat × NodeOutput)) (pairs : List (String × List ℚ)),
      (∀ s, kind ≠ .Variable s) →
      Core.evalInputs inputs values = .ok pairs →
      runLoop (Core.runIdx kind pairs) (List.range (maxLenOf pairs)) = .ok vals →
      Core.Node.eval (.mk nodeId kind inputs) values = collapse vals) := by
  refine ⟨?_, ?_, ?_, ?_⟩
  · intro h
    subst h
    rfl
  · intro v h
    subst h
    rfl
  · intro h
    cases vals with
    | nil => simp at h
    | cons a t =>
      cases t with
      | nil => simp at h
      | cons b t2 => rfl
  · intro nodeId kind inputs values pairs hnv hins hloop
    rw [Core.eval_collapse_shape nodeId kind inputs values pairs hnv hins, hloop]

/-- Witness for C8: two produced elements collapse to a sequence. -/
theorem c8_collapse_property_witness :
    collapse [1, 2] = .ok (.NumberArray [1, 2]) :=
  (c8_collapse_property [1, 2]).2.2.1 (by decide)

/-- C9: evaluating a Variable node with no binding for its id fails with
the "missing variable value" error naming the variable and the node id,
and the node's attached inputs never affect the result (the variable
branch returns before any input traversal). -/
theorem c9_unbound_variable (nodeId : Nat) (varName : String)
    (inputs : List Core.Node) (values : List (Nat × NodeOutput)) :
    Core.Node.eval (.mk nodeId (.Variable varName) inputs) values =
      Core.Node.eval (.mk nodeId (.Variable varName) []) values ∧
    (List.lookup nodeId values = none →
      Core.Node.eval (.mk nodeId (.Variable varName) inputs) values =
        .err ("missing variable value for " ++ varName ++
          " (node id = " ++ toString nodeId ++ ")")) := by
  constructor
  · rfl
  · intro h
    rw [Core.Node.eval, h]

/-- Witness for C9: node id 7 named "x" with an (ignored) attached input
and an empty binding map. -/
theorem c9_unbound_variable_witness :
    Core.Node.eval (.mk 7 (.Variable "x") [.mk 1 (.Variable "y") []]) [] =
      .err "missing variable value for x (node id = 7)" :=
  (c9_unbound_variable 7 "x" [.mk 1 (.Variable "y") []] []).2 rfl

/-- C10: evaluation is not total as an error-returning function: a
Formula node with two Variable inputs, one bound to the empty sequence
and the other to a sequence of length 1, panics at the
`expect("The value array from a node was empty")` instead of returning
an error, because the Variable branch returns the bound value unchanged. -/
theorem c10_eval_panics_on_empty_bound_sequence :
    Core.Node.eval
      (.mk 0 (.Formula (.add (.var "$1") (.var "$2")))
        [.mk 1 (.Variable "a") [], .mk 2 (.Variable "b") []])
      [(1, .NumberArray []), (2, .NumberArray [5])] =
    .panic "The value array from a node was empty" := rfl

/-- C1 counterexample: a node definition with kind discriminator 2
(resp. 3) does not construct a constant node — `Tree::new` fails with
the "Invalid node type" error, contradicting the claim that kinds 2 and
3 construct successfully and that only kinds outside 0..4 fail. -/
theorem c1_counterexample :
    Core.Tree.new [⟨0, "5", 2⟩] [] = .err "Invalid node type" ∧
    (¬ ∃ t, Core.Tree.new [⟨0, "5", 2⟩] [] = .ok t) ∧
    Core.Tree.new [⟨0, "6", 3⟩] [] = .err "Invalid node type" := by
  refine ⟨rfl, ?_, rfl⟩
  rintro ⟨t, ht⟩
  exact RustResult.noConfusion ht

/-- C1 (amended): `Tree::new` constructs nodes only for kind
discriminators 0 (variable) and 1 (formula, subject to the formula text
parsing); every other discriminator — including 2, 3 and 4 — fails
construction with the "Invalid node type" error. -/
theorem c1_only_variable_and_formula_kinds (nodeId : Nat) (value : String)
    (k : Nat) (h0 : k ≠ 0) (h1 : k ≠ 1) :
    Core.Tree.new [⟨nodeId, value, k⟩] [] = .err "Invalid node type" ∧
    Core.Tree.new [⟨nodeId, value, 0⟩] [] =
      .ok ⟨[(nodeId, ⟨.Variable value, []⟩)]⟩ ∧
    (∀ e, parseExpr value = some e →
      Core.Tree.new [⟨nodeId, value, 1⟩] [] =
        .ok ⟨[(nodeId, ⟨.Formula e, []⟩)]⟩) := by
  refine ⟨?_, rfl, ?_⟩
  · obtain _ | _ | k2 := k
    · exact absurd rfl h0
    · exact absurd rfl h1
    · rfl
  · intro e he
    rw [Core.Tree.new, Core.buildNodes, he]
    rfl

/-- Witness for C1 at the concrete definition `{node_id 0, value "5",
kind 2}`. -/
theorem c1_only_variable_and_formula_kinds_witness :
    Core.Tree.new [⟨0, "5", 2⟩] [] = .err "Invalid node type" :=
  (c1_only_variable_and_formula_kinds 0 "5" 2 (by decide) (by decide)).1

/-- C2 counterexample: the end-to-end scenario `formula "a + 1"` with
single input the Variable node "a" (id 3) bound to 3 does NOT yield the
scalar 4 — the input is exposed to the formula only as `"$3"`, so the
identifier `a` is unknown and evaluation fails. -/
theorem c2_counterexample :
    parseExpr "a + 1" = some (.add (.var "a") (.num 1)) ∧
    Core.Node.eval
      (.mk 0 (.Formula (.add (.var "a") (.num 1))) [.mk 3 (.Variable "a") []])
      [(3, .Number 3)] = .err "Formula evaluation failed" ∧
    Core.Node.eval
      (.mk 0 (.Formula (.add (.var "a") (.num 1))) [.mk 3 (.Variable "a") []])
      [(3, .Number 3)] ≠ .ok (.Number 4) := by
  refine ⟨rfl, rfl, ?_⟩
  intro h
  exact RustResult.noConfusion h

/-- C2 (amended): the formula must reference its variable input by the
synthetic identifier derived from the input node's id: with expression
text "$3 + 1" the evaluation yields the scalar 4, while the variable's
own name ("a + 1") fails with a formula-evaluation error. -/
theorem c2_formula_uses_synthetic_identifier :
    parseExpr "$3 + 1" = some (.add (.var "$3") (.num 1)) ∧
    Core.Node.eval
      (.mk 0 (.Formula (.add (.var "$3") (.num 1))) [.mk 3 (.Variable "a") []])
      [(3, .Number 3)] = .ok (.Number 4) ∧
    Core.Node.eval
      (.mk 0 (.Formula (.add (.var "a") (.num 1))) [.mk 3 (.Variable "a") []])
      [(3, .Number 3)] = .err "Formula evaluation failed" := by
  refine ⟨rfl, ?_, rfl⟩
  have h : Core.Node.eval
      (.mk 0 (.Formula (.add (.var "$3") (.num 1))) [.mk 3 (.Variable "a") []])
      [(3, .Number 3)] = .ok (.Number ((3 : ℚ) + 1)) := rfl
  rw [h]
  norm_num

/-- C3: a Formula node definition whose expression text fails to parse
(here an unclosed parenthesis) makes `Tree::new` of `src/core.rs` PANIC
at the `build_operator_tree(..).unwrap()` instead of returning an error
result, while `Node::from_formula` of `src/lib.rs` returns the "Unable
to parse expression" error for the same text. -/
theorem c3_parse_failure_panics :
    parseExpr "(a + 1" = none ∧
    Core.Tree.new [⟨0, "(a + 1", 1⟩] [] =
      .panic "called Result::unwrap on an Err value" ∧
    Lib.from_formula "(a + 1" = .err "Unable to parse expression" :=
  ⟨rfl, rfl, rfl⟩

/-- C4 counterexample: evaluating an external-query (`SqlQuery`) node
does not return an "operation not supported" error: with no inputs it
returns the "computation resulted in no output" error, and with an input
it panics at the `todo!()`. -/
theorem c4_counterexample :
    Core.Node.eval (.mk 0 (.SqlQuery "SELECT 1") []) [] =
      .err "The computation resulted in no output" ∧
    Core.Node.eval (.mk 0 (.SqlQuery "SELECT 1") []) [] ≠
      .err "operation not supported" ∧
    Core.Node.eval (.mk 0 (.SqlQuery "SELECT 1") [.mk 1 (.Variable "a") []])
      [(1, .Number 5)] = .panic "not yet implemented" := by
  refine ⟨rfl, ?_, rfl⟩
  intro h
  injection h with h2
  simp at h2

/-- C4 (amended): an external-query (`SqlQuery`) node never evaluates
successfully, but not via an "operation not supported" error: with no
inputs the broadcast length is 0 and the returned error is "The
computation resulted in no output"; once the inputs evaluate to a
positive broadcast length, evaluation panics at the `todo!()` ("not yet
implemented") instead of returning an error. -/
theorem c4_sql_query_never_supported (nodeId : Nat) (q : String)
    (values : List (Nat × NodeOutput)) :
    Core.Node.eval (.mk nodeId (.SqlQuery q) []) values =
      .err "The computation resulted in no output" ∧
    (∀ (inputs : List Core.Node) (pairs : List (String × List ℚ)),
      Core.evalInputs inputs values = .ok pairs → 1 ≤ maxLenOf pairs →
      Core.Node.eval (.mk nodeId (.SqlQuery q) inputs) values =
        .panic "not yet implemented") := by
  constructor
  · rfl
  · intro inputs pairs hins hlen
    rw [Core.eval_collapse_shape nodeId (.SqlQuery q) inputs values pairs
      (fun s h => Core.NodeKind.noConfusion h) hins]
    obtain ⟨m, hm⟩ := Nat.exists_eq_add_of_le hlen
    rw [hm, Nat.add_comm, List.range_succ_eq_map]
    rfl

/-- Witness for C4: a single bound variable input gives broadcast length
1 and the evaluation panics. -/
theorem c4_sql_query_never_supported_witness :
    Core.Node.eval (.mk 0 (.SqlQuery "q") [.mk 1 (.Variable "a") []])
      [(1, .Number 5)] = .panic "not yet implemented" :=
  (c4_sql_query_never_supported 0 "q" [(1, .Number 5)]).2
    [.mk 1 (.Variable "a") []] [("$1", [5])] rfl (by decide)

/-- C5 counterexample: the "node not found" / "input node not found"
errors identify which endpoint is missing but do NOT name the missing
id: the message for the dangling edge `{node_id 5, input_id 5}` (resp.
`{node_id 5, input_id 7}`) contains no "5" (resp. "7"). -/
theorem c5_counterexample :
    Core.Tree.new [] [⟨5, 5⟩] = .err "node not found" ∧
    ¬ ("5".toList <:+: "node not found".toList) ∧
    Core.Tree.new [⟨5, "x", 0⟩] [⟨5, 7⟩] = .err "input node not found" ∧
    ¬ ("7".toList <:+: "input node not found".toList) :=
  ⟨rfl, by decide, rfl, by decide⟩

/-- C5 (amended): a missing `node_id` endpoint fails edge processing
with the fixed message "node not found" and a missing `input_id`
endpoint with "input node not found" (identifying which endpoint but not
the id); when both are present, the input's id is appended to the
referencing node's ordered input list and processing continues with the
remaining edges. -/
theorem c5_edge_endpoint_errors (m : List (Nat × Core.TreeNode))
    (e : Core.EdgeDefinition) (rest : List Core.EdgeDefinition) :
    (Core.lookupNode m e.node_id = none →
      Core.addEdges (e :: rest) m = .err "node not found") ∧
    (∀ node, Core.lookupNode m e.node_id = some node →
      Core.lookupNode m e.input_id = none →
      Core.addEdges (e :: rest) m = .err "input node not found") ∧
    (∀ node inputNode, Core.lookupNode m e.node_id = some node →
      Core.lookupNode m e.input_id = some inputNode →
      Core.addEdges (e :: rest) m =
        Core.addEdges rest
          (Core.insertNode m e.node_id ⟨node.kind, node.inputs ++ [e.input_id]⟩)) := by
  refine ⟨?_, ?_, ?_⟩
  · intro h
    rw [Core.addEdges, h]
  · intro node h1 h2
    rw [Core.addEdges, h1, h2]
  · intro node inputNode h1 h2
    rw [Core.addEdges, h1, h2]

/-- Witness for C5 at the dangling edge `{node_id 5, input_id 5}` on an
empty node map. -/
theorem c5_edge_endpoint_errors_witness :
    Core.addEdges [⟨5, 5⟩] [] = .err "node not found" :=
  (c5_edge_endpoint_errors [] ⟨5, 5⟩ []).1 rfl

end Delphy
